import Mathlib

/-!
Verification of the gmocoiner client's signing and dispatch pipeline.

Shallow embedding of `gmocoiner/auth.py` (request signer) and
`gmocoiner/api.py` (dispatch core), with proofs of the specified
properties.  Python strings are modelled as `List Char`, byte strings as
`List Nat` (each element `< 256`), wall-clock times as rationals, and the
effectful parts of dispatch (clock reads, the HTTP send) as explicit
inputs.
-/

namespace Gmocoiner

/-! ## SHA-256 (`hashlib.sha256`) over byte lists -/

/-- Truncate to a 32-bit word. -/
def w32 (x : Nat) : Nat := x % 4294967296

/-- 32-bit right rotation. -/
def rotr (n x : Nat) : Nat := w32 ((x >>> n) ||| (x <<< (32 - n)))

/-- SHA-256 small sigma 0. -/
def ssig0 (x : Nat) : Nat := (rotr 7 x) ^^^ (rotr 18 x) ^^^ (x >>> 3)

/-- SHA-256 small sigma 1. -/
def ssig1 (x : Nat) : Nat := (rotr 17 x) ^^^ (rotr 19 x) ^^^ (x >>> 10)

/-- SHA-256 big sigma 0. -/
def bsig0 (x : Nat) : Nat := (rotr 2 x) ^^^ (rotr 13 x) ^^^ (rotr 22 x)

/-- SHA-256 big sigma 1. -/
def bsig1 (x : Nat) : Nat := (rotr 6 x) ^^^ (rotr 11 x) ^^^ (rotr 25 x)

/-- SHA-256 choice function. -/
def ch (e f g : Nat) : Nat := (e &&& f) ^^^ ((e ^^^ 4294967295) &&& g)

/-- SHA-256 majority function. -/
def maj (a b c : Nat) : Nat := (a &&& b) ^^^ (a &&& c) ^^^ (b &&& c)

/-- SHA-256 round constants (FIPS 180-4, in decimal). -/
def shaK : List Nat :=
  [1116352408, 1899447441, 3049323471, 3921009573, 961987163,
   1508970993, 2453635748, 2870763221, 3624381080, 310598401,
   607225278, 1426881987, 1925078388, 2162078206, 2614888103,
   3248222580, 3835390401, 4022224774, 264347078, 604807628,
   770255983, 1249150122, 1555081692, 1996064986, 2554220882,
   2821834349, 2952996808, 3210313671, 3336571891, 3584528711,
   113926993, 338241895, 666307205, 773529912, 1294757372,
   1396182291, 1695183700, 1986661051, 2177026350, 2456956037,
   2730485921, 2820302411, 3259730800, 3345764771, 3516065817,
   3600352804, 4094571909, 275423344, 430227734, 506948616,
   659060556, 883997877, 958139571, 1322822218, 1537002063,
   1747873779, 1955562222, 2024104815, 2227730452, 2361852424,
   2428436474, 2756734187, 3204031479, 3329325298]

/-- The eight-word SHA-256 working state. -/
structure Hash8 where
  a : Nat
  b : Nat
  c : Nat
  d : Nat
  e : Nat
  f : Nat
  g : Nat
  h : Nat
deriving DecidableEq, Repr

/-- The SHA-256 initial hash value (FIPS 180-4, in decimal). -/
def initHash : Hash8 :=
  ⟨1779033703, 3144134277, 1013904242, 2773480762,
   1359893119, 2600822924, 528734635, 1541459225⟩

/-- One SHA-256 compression round, consuming one (constant, schedule) pair. -/
def shaRound (st : Hash8) (kw : Nat × Nat) : Hash8 :=
  let t1 := w32 (st.h + bsig1 st.e + ch st.e st.f st.g + kw.1 + kw.2)
  let t2 := w32 (bsig0 st.a + maj st.a st.b st.c)
  ⟨w32 (t1 + t2), st.a, st.b, st.c, w32 (st.d + t1), st.e, st.f, st.g⟩

/-- Big-endian 32-bit word at index `i` of a byte chunk. -/
def wordAt (c : List Nat) (i : Nat) : Nat :=
  c.getD (4 * i) 0 * 16777216 + c.getD (4 * i + 1) 0 * 65536 +
    c.getD (4 * i + 2) 0 * 256 + c.getD (4 * i + 3) 0

/-- The first 16 words of the message schedule, read big-endian from the chunk. -/
def initWords (c : List Nat) : List Nat := (List.range 16).map (wordAt c)

/-- Extend a message schedule by `n` further words. -/
def extendSchedule (ws : List Nat) : Nat → List Nat
  | 0 => ws
  | n + 1 =>
    let w := extendSchedule ws n
    let l := w.length
    w ++ [w32 (ssig1 (w.getD (l - 2) 0) + w.getD (l - 7) 0 +
               ssig0 (w.getD (l - 15) 0) + w.getD (l - 16) 0)]

/-- Compress one 64-byte chunk into the running hash state. -/
def shaCompress (st : Hash8) (chunk : List Nat) : Hash8 :=
  let ws := extendSchedule (initWords chunk) 48
  let r := (shaK.zip ws).foldl shaRound st
  ⟨w32 (st.a + r.a), w32 (st.b + r.b), w32 (st.c + r.c), w32 (st.d + r.d),
   w32 (st.e + r.e), w32 (st.f + r.f), w32 (st.g + r.g), w32 (st.h + r.h)⟩

/-- SHA-256 padding: append `0x80`, zero bytes, and the 64-bit big-endian
bit length, reaching a multiple of 64 bytes. -/
def padBytes (msg : List Nat) : List Nat :=
  let L := msg.length
  let k := (119 - L % 64) % 64
  msg ++ [128] ++ List.replicate k 0 ++
    (List.range 8).map (fun i => ((8 * L) >>> (8 * (7 - i))) % 256)

/-- Split a byte list into consecutive 64-byte chunks. -/
def chunks64 (l : List Nat) : List (List Nat) :=
  (List.range (l.length / 64)).map (fun i => (l.drop (64 * i)).take 64)

/-- Serialize a 32-bit word to four big-endian bytes. -/
def wordBytes (x : Nat) : List Nat :=
  [(x >>> 24) % 256, (x >>> 16) % 256, (x >>> 8) % 256, x % 256]

/-- SHA-256 digest of a byte list, as 32 bytes. -/
def sha256 (msg : List Nat) : List Nat :=
  let st := (chunks64 (padBytes msg)).foldl shaCompress initHash
  wordBytes st.a ++ wordBytes st.b ++ wordBytes st.c ++ wordBytes st.d ++
    wordBytes st.e ++ wordBytes st.f ++ wordBytes st.g ++ wordBytes st.h

/-! ## HMAC-SHA256 (`hmac.new(key, msg, hashlib.sha256)`) -/

/-- HMAC-SHA256 of a message keyed by a byte key, as 32 bytes. -/
def hmacSha256 (key msg : List Nat) : List Nat :=
  let k0 := if 64 < key.length then sha256 key else key
  let k := k0 ++ List.replicate (64 - k0.length) 0
  let ipad := k.map (fun b => b ^^^ 0x36)
  let opad := k.map (fun b => b ^^^ 0x5c)
  sha256 (opad ++ sha256 (ipad ++ msg))

/-- Lowercase hexadecimal digit for a nibble. -/
def hexChar (n : Nat) : Char :=
  if n < 10 then Char.ofNat (48 + n) else Char.ofNat (87 + n)

/-- `.hexdigest()`: render bytes as lowercase hexadecimal characters. -/
def hexDigest (bs : List Nat) : List Char :=
  bs.flatMap (fun b => [hexChar (b / 16), hexChar (b % 16)])

/-- `.encode('ascii')`: code points of a character list as bytes
(faithful on the ASCII inputs the client uses). -/
def strBytes (s : List Char) : List Nat := s.map (fun c => c.toNat % 256)

/-! ## Request signer (`gmocoiner/auth.py`, `GMOCoinAuth.__call__`) -/

/-- The characters of `"/public"`. -/
def pubPfx : List Char := "/public".data

/-- The characters of `"/private"`. -/
def privPfx : List Char := "/private".data

/-- `urllib.parse.urlparse(path_url).path`: the path component of a
path-with-optional-query, i.e. everything before the first `?`. -/
def urlPath (pathUrl : List Char) : List Char := pathUrl.takeWhile (fun c => c ≠ '?')

/-- `re.sub(r'\A/(public|private)', '', o)`: the regex matches exactly when
the first 7 characters are `/public` or the first 8 are `/private`, and the
match is deleted. -/
def canonicalPath (o : List Char) : List Char :=
  if o.take 7 = pubPfx then o.drop 7
  else if o.take 8 = privPfx then o.drop 8
  else o

/-- Path canonicalization as the spec words it: strip a leading `/public`
or `/private` *path segment* (the stripped text must be followed by `/` or
be the whole path). Stated for comparison with `canonicalPath`, which
strips the literal text with no segment-boundary check. -/
def canonicalPathSpec (o : List Char) : List Char :=
  if o = pubPfx ∨ o.take 8 = pubPfx ++ ['/'] then o.drop 7
  else if o = privPfx ∨ o.take 9 = privPfx ++ ['/'] then o.drop 8
  else o

/-- Python-dict style insertion: overwrite the entry with key `k` if one
exists, else append `(k, v)` at the end (insertion order preserved). -/
def setKey (hs : List (String × List Char)) (k : String) (v : List Char) :
    List (String × List Char) :=
  if hs.any (fun p => p.1 == k) then hs.map (fun p => if p.1 == k then (k, v) else p)
  else hs ++ [(k, v)]

/-- Look up the value stored under key `k` in a header list. -/
def getHeader (hs : List (String × List Char)) (k : String) : Option (List Char) :=
  (hs.find? (fun p => p.1 == k)).map (fun p => p.2)

/-- A prepared HTTP request as the signer sees it: method, path-with-query
(`r.path_url`), optional body, and headers. -/
structure PreparedRequest where
  method : List Char
  pathUrl : List Char
  body : Option (List Char)
  headers : List (String × List Char)
deriving DecidableEq, Repr

/-- The signer's credentials (`GMOCoinAuth.__init__`). -/
structure GMOCoinAuth where
  api_key : List Char
  secret : List Char
deriving DecidableEq, Repr

/-- `GMOCoinAuth.__call__`: sign a prepared request.  The wall-clock
timestamp string `str(int(time.time() * 1000))` is passed in explicitly. -/
def GMOCoinAuth.call (a : GMOCoinAuth) (timestamp : List Char) (r : PreparedRequest) :
    PreparedRequest :=
  let o := urlPath r.pathUrl
  let p := canonicalPath o
  let text := timestamp ++ r.method ++ p ++ r.body.getD []
  let sign := hexDigest (hmacSha256 (strBytes a.secret) (strBytes text))
  let headers :=
    setKey (setKey (setKey r.headers "API-KEY" a.api_key) "API-TIMESTAMP" timestamp)
      "API-SIGN" sign
  { r with headers := headers }

/-- The signature value `GMOCoinAuth.call` computes for a request. -/
def signatureOf (a : GMOCoinAuth) (timestamp : List Char) (r : PreparedRequest) : List Char :=
  hexDigest (hmacSha256 (strBytes a.secret)
    (strBytes (timestamp ++ r.method ++ canonicalPath (urlPath r.pathUrl) ++ r.body.getD [])))

/-- Lowercase hexadecimal digits. -/
def isLowerHexChar (c : Char) : Bool := "0123456789abcdef".data.contains c

/-! ## Dispatch core (`gmocoiner/api.py`, `GMOCoin._request`) -/

/-- JSON-serializable payload values (the value domain the client uses:
strings, integers, lists, objects). -/
inductive JValue where
  | str (s : List Char)
  | num (n : Int)
  | list (l : List JValue)
  | obj (fields : List (String × JValue))

/-- JSON string escaping for the characters the client's payloads use. -/
def jsonEscape (c : Char) : List Char :=
  if c = '"' then ['\\', '"'] else if c = '\\' then ['\\', '\\'] else [c]

mutual

/-- `json.dumps` rendering of a value (default separators). -/
def jsonValue : JValue → List Char
  | .str s => '"' :: (s.flatMap jsonEscape ++ ['"'])
  | .num n => (toString n).data
  | .list l => '[' :: (jsonSeq l ++ [']'])
  | .obj fs => '\x7b' :: (jsonFields fs ++ ['\x7d'])

/-- Comma-separated rendering of a value sequence. -/
def jsonSeq : List JValue → List Char
  | [] => []
  | [v] => jsonValue v
  | v :: vs => jsonValue v ++ ", ".data ++ jsonSeq vs

/-- Comma-separated rendering of object fields. -/
def jsonFields : List (String × JValue) → List Char
  | [] => []
  | [(k, v)] => '"' :: (k.data ++ "\": ".data ++ jsonValue v)
  | (k, v) :: rest => ('"' :: (k.data ++ "\": ".data ++ jsonValue v)) ++ ", ".data ++ jsonFields rest

end

/-- `json.dumps(payload)` for a payload mapping. -/
def jsonDumps (payload : List (String × JValue)) : List Char :=
  '\x7b' :: (jsonFields payload ++ ['\x7d'])

/-- Null-stripping (`api.py` lines 42-44): drop every key whose value is
`None`, keeping order. -/
def stripNone (payload : List (String × Option JValue)) : List (String × JValue) :=
  payload.filterMap (fun p => p.2.map (fun v => (p.1, v)))

/-- Rendering of a scalar query value in the URL query string. -/
def queryText : JValue → List Char
  | .str s => s
  | .num n => (toString n).data
  | .list _ => []
  | .obj _ => []

/-- `k=v&...` query-string rendering of GET parameters. -/
def queryString (q : List (String × JValue)) : List Char :=
  List.intercalate ['&'] (q.map (fun p => p.1.data ++ ['='] ++ queryText p.2))

/-- The `?query` part appended to the URL when GET parameters are present. -/
def querySuffix : Option (List (String × JValue)) → List Char
  | none => []
  | some [] => []
  | some q => '?' :: queryString q

/-- HTTP response as the client sees it (`requests.Response`). -/
structure Response where
  status_code : Nat
  text : List Char
deriving DecidableEq, Repr

/-- A transport-level failure (DNS, TLS, connection refused...): any
exception from `Session.send` other than an HTTP error status. -/
structure TransportError where
  msg : String
deriving DecidableEq, Repr

/-- Client state (`GMOCoin.__init__`): session headers and auth hook,
signer credentials, rate-limit flag, last-send timestamp. -/
structure GMOCoinState where
  sessionHeaders : List (String × List Char)
  sessionAuth : Option GMOCoinAuth
  gmo_auth : GMOCoinAuth
  late_limit : Bool
  last_req_time : ℚ

/-- The effect inputs consumed by one `_request` call: the clock value at
the rate-limit check, the duration between send start and the post-send
clock read, the send's outcome, and the timestamp string the auth hook
would read from the clock. -/
structure ReqEnv where
  nowAtCheck : ℚ
  sendDuration : ℚ
  sendResult : Except TransportError Response
  timestamp : List Char

/-- Everything observable about one `_request` call: the state afterwards,
the returned response or propagated exception, the prepared request, the
GET query parameters, the time slept, send start/end times, and whether an
HTTP error status was caught and logged. -/
structure ReqOutcome where
  state : GMOCoinState
  result : Except TransportError Response
  prepped : PreparedRequest
  query : Option (List (String × JValue))
  waited : ℚ
  sendStart : ℚ
  sendEnd : ℚ
  httpErrorLogged : Bool

/-- `GMOCoin._request`: null-strip the payload, branch on the HTTP method
(GET: query parameters, no body; otherwise: JSON body, no query), select
the endpoint and set or clear the session auth hook, prepare the request
(running the auth hook if set), wait out the rate limit, send, swallow
HTTP-status errors, and update the last-send timestamp after the send.
A transport-level exception from the send propagates (`Except.error`)
before the timestamp update. -/
def GMOCoin.request (st : GMOCoinState) (method path : List Char)
    (payload : List (String × Option JValue)) (auth : Bool) (env : ReqEnv) : ReqOutcome :=
  let payload' := stripNone payload
  let body : Option (List Char) := if method = "GET".data then none else some (jsonDumps payload')
  let query : Option (List (String × JValue)) := if method = "GET".data then some payload' else none
  let sauth : Option GMOCoinAuth := if auth then some st.gmo_auth else none
  let st1 := { st with sessionAuth := sauth }
  let pathUrl := (if auth then privPfx else pubPfx) ++ path ++ querySuffix query
  let basic : PreparedRequest :=
    { method := method, pathUrl := pathUrl, body := body, headers := st1.sessionHeaders }
  let prepped := match sauth with
    | none => basic
    | some a => a.call env.timestamp basic
  let waited : ℚ :=
    if st1.late_limit ∧ env.nowAtCheck < st1.last_req_time + 1
    then st1.last_req_time + 1 - env.nowAtCheck else 0
  let sendStart := env.nowAtCheck + waited
  let sendEnd := sendStart + env.sendDuration
  match env.sendResult with
  | .error e =>
    { state := st1, result := .error e, prepped := prepped, query := query,
      waited := waited, sendStart := sendStart, sendEnd := sendEnd, httpErrorLogged := false }
  | .ok resp =>
    let st2 := if st1.late_limit then { st1 with last_req_time := sendEnd } else st1
    { state := st2, result := .ok resp, prepped := prepped, query := query,
      waited := waited, sendStart := sendStart, sendEnd := sendEnd,
      httpErrorLogged := decide (400 ≤ resp.status_code ∧ resp.status_code < 600) }

/-- `GMOCoin.closeorder`'s payload mapping, including the nested
`settlePosition` single-element list of one object. -/
def closeorderPayload (symbol side executionType : List Char)
    (settlePosition_positionId : Int) (settlePosition_size : List Char)
    (price : Option Int) : List (String × Option JValue) :=
  [("symbol", some (.str symbol)),
   ("side", some (.str side)),
   ("executionType", some (.str executionType)),
   ("price", price.map JValue.num),
   ("settlePosition", some (.list [.obj
      [("positionId", .num settlePosition_positionId),
       ("size", .str settlePosition_size)]]))]

/-- `GMOCoin.closeorder`: build the nested payload and POST it to
`/v1/closeOrder` with authentication. -/
def GMOCoin.closeorder (st : GMOCoinState) (symbol side executionType : List Char)
    (settlePosition_positionId : Int) (settlePosition_size : List Char)
    (price : Option Int) (env : ReqEnv) : ReqOutcome :=
  GMOCoin.request st "POST".data "/v1/closeOrder".data
    (closeorderPayload symbol side executionType settlePosition_positionId
      settlePosition_size price) true env

/-! ## Concrete fixtures -/

/-- A concrete client state: fresh client with rate limiting enabled. -/
def stW : GMOCoinState :=
  ⟨[("Content-Type", "application/json".data)], none,
   ⟨"key".data, "secret".data⟩, true, 0⟩

/-- The concrete state after an authenticated call set the session auth
hook. -/
def stAuthW : GMOCoinState := { stW with sessionAuth := some stW.gmo_auth }

/-- Effect inputs: clock at 0 s, instantaneous send, 200 response. -/
def envOk1 : ReqEnv := ⟨0, 0, Except.ok ⟨200, "ok".data⟩, "1000".data⟩

/-- Effect inputs: clock at 2 s, instantaneous send, 200 response. -/
def envOk2 : ReqEnv := ⟨1 + 1, 0, Except.ok ⟨200, "ok".data⟩, "1000".data⟩

/-- Effect inputs: the send raises a transport-level error. -/
def envErr : ReqEnv := ⟨0, 0, Except.error ⟨"connection refused"⟩, "1000".data⟩

/-- Effect inputs: the send yields a 400 error response. -/
def env400 : ReqEnv := ⟨0, 0, Except.ok ⟨400, "bad request".data⟩, "1000".data⟩

/-! ## Auxiliary lemmas -/

theorem wordBytes_lt {x : Nat} : ∀ b ∈ wordBytes x, b < 256 := by
  intro b hb
  simp only [wordBytes, List.mem_cons, List.not_mem_nil, or_false] at hb
  rcases hb with h | h | h | h <;> omega

theorem sha256_byte_lt {m : List Nat} : ∀ b ∈ sha256 m, b < 256 := by
  intro b hb
  simp only [sha256, List.mem_append] at hb
  rcases hb with ((((((h | h) | h) | h) | h) | h) | h) | h <;> exact wordBytes_lt _ h

theorem hexChar_lower : ∀ n < 16, isLowerHexChar (hexChar n) = true := by decide

theorem hexDigest_lower {bs : List Nat} (hb : ∀ b ∈ bs, b < 256) :
    (hexDigest bs).all isLowerHexChar = true := by
  rw [List.all_eq_true]
  intro c hc
  rw [hexDigest, List.mem_flatMap] at hc
  obtain ⟨b, hbm, hcm⟩ := hc
  have hb' := hb b hbm
  simp only [List.mem_cons, List.not_mem_nil, or_false] at hcm
  rcases hcm with rfl | rfl
  · exact hexChar_lower _ (by omega)
  · exact hexChar_lower _ (Nat.mod_lt _ (by norm_num))

theorem find?_cons_self {V : Type} (k : String) (v : V) (t : List (String × V)) :
    List.find? (fun p => p.1 == k) ((k, v) :: t) = some (k, v) :=
  List.find?_cons_of_pos _ (by simp)

theorem find?_cons_of_key_ne {V : Type} {k : String} {p : String × V}
    (hb : (p.1 == k) = false) (t : List (String × V)) :
    List.find? (fun q => q.1 == k) (p :: t) = List.find? (fun q => q.1 == k) t :=
  List.find?_cons_of_neg _ (by simp [hb])

theorem find?_overwrite (k : String) (v : List Char) (hs : List (String × List Char)) :
    (hs.map (fun p => if p.1 == k then (k, v) else p)).find? (fun p => p.1 == k) =
      if hs.any (fun p => p.1 == k) then some (k, v) else none := by
  induction hs with
  | nil => simp
  | cons p t ih =>
    rw [List.map_cons, List.any_cons]
    by_cases hp : (p.1 == k) = true
    · rw [if_pos hp, find?_cons_self, hp, Bool.true_or]
      simp
    · have hb : (p.1 == k) = false := by simpa using hp
      rw [if_neg (by simp [hb]), find?_cons_of_key_ne hb, ih, hb, Bool.false_or]

theorem getHeader_setKey_self (hs : List (String × List Char)) (k : String) (v : List Char) :
    getHeader (setKey hs k v) k = some v := by
  rw [getHeader, setKey]
  by_cases h : hs.any (fun p => p.1 == k)
  · rw [if_pos h, find?_overwrite, if_pos h, Option.map_some']
  · simp only [Bool.not_eq_true] at h
    rw [if_neg (by simp [h]), List.find?_append,
      List.find?_eq_none.mpr (fun x hx => by
        have := List.any_eq_false.mp h x hx
        simpa using this)]
    simp

theorem setKey_of_absent {hs : List (String × List Char)} {k : String} (v : List Char)
    (h : hs.any (fun p => p.1 == k) = false) : setKey hs k v = hs ++ [(k, v)] := by
  rw [setKey, if_neg (by simp [h])]

theorem any_eq_false_of_getHeader (hs : List (String × List Char)) (k : String)
    (h : getHeader hs k = none) : hs.any (fun p => p.1 == k) = false := by
  rw [getHeader, Option.map_eq_none'] at h
  exact List.any_eq_false.mpr (List.find?_eq_none.mp h)

/-! ## Claim theorems -/

set_option maxRecDepth 100000 in
/-- Validation of the HMAC-SHA256 embedding against a known test vector:
key `test`, message `1000GET/v1/ticker` (the spec's signature-determinism
example inputs). -/
theorem hmac_test_vector :
    hexDigest (hmacSha256 (strBytes "test".data) (strBytes "1000GET/v1/ticker".data)) =
      "a4cf7b3c90fe2b5c32211aac88713d5f346a64a3ed9674a78ef3c4db13e2b433".data := by
  decide

/-- C1: For every signed request, the attached `API-SIGN` header equals
the lowercase hexadecimal HMAC-SHA256, keyed by the secret key, of the
concatenation timestamp string + HTTP method name + canonical request path
+ raw request body (the empty string when the request has no body); and
that value consists of lowercase hexadecimal characters only. -/
theorem api_sign_is_hmac_of_message (a : GMOCoinAuth) (ts : List Char) (r : PreparedRequest) :
    getHeader (a.call ts r).headers "API-SIGN" =
      some (hexDigest (hmacSha256 (strBytes a.secret)
        (strBytes (ts ++ r.method ++ canonicalPath (urlPath r.pathUrl) ++ r.body.getD [])))) ∧
    (hexDigest (hmacSha256 (strBytes a.secret)
        (strBytes (ts ++ r.method ++ canonicalPath (urlPath r.pathUrl) ++ r.body.getD [])))).all
      isLowerHexChar = true := by
  constructor
  · exact getHeader_setKey_self _ _ _
  · apply hexDigest_lower
    intro b hb
    simp only [hmacSha256] at hb
    exact sha256_byte_lt b hb

/-- C2 (counterexample): canonicalization is not segment stripping.
On the path `/publication`, whose first segment is `publication` and not
`public`, segment stripping is a no-op but the code strips the literal
leading `/public`, yielding `ation`. -/
theorem canonicalPath_not_segment_stripping :
    canonicalPath "/publication".data ≠ canonicalPathSpec "/publication".data ∧
    canonicalPath "/publication".data = "ation".data ∧
    canonicalPathSpec "/publication".data = "/publication".data := by
  refine ⟨by decide, by decide, by decide⟩

/-- C2 (amended): the canonical path is the request path with a leading
literal `/public` or `/private` *text* stripped, with no segment-boundary
check; a path starting with neither text is left unchanged, and in
particular `/private/v1/order` canonicalizes to `/v1/order` while
`/v1/order` is unchanged. -/
theorem canonicalPath_strips_literal_text :
    (∀ rest : List Char, canonicalPath (pubPfx ++ rest) = rest) ∧
    (∀ rest : List Char, canonicalPath (privPfx ++ rest) = rest) ∧
    (∀ o : List Char, o.take 7 ≠ pubPfx → o.take 8 ≠ privPfx → canonicalPath o = o) ∧
    canonicalPath "/private/v1/order".data = "/v1/order".data ∧
    canonicalPath "/v1/order".data = "/v1/order".data := by
  refine ⟨fun rest => ?_, fun rest => ?_, fun o h1 h2 => ?_, by decide, by decide⟩
  · rw [canonicalPath, if_pos (List.take_left' (by decide)), List.drop_left' (by decide)]
  · have hne : (privPfx ++ rest).take 7 ≠ pubPfx := by
      rw [List.take_append_eq_append_take]
      have h7 : privPfx.take 7 = "/privat".data := by decide
      have h0 : 7 - privPfx.length = 0 := by decide
      rw [h7, h0, List.take_zero, List.append_nil]
      decide
    rw [canonicalPath, if_neg hne, if_pos (List.take_left' (by decide)),
      List.drop_left' (by decide)]
  · rw [canonicalPath, if_neg h1, if_neg h2]

/-- Witness for the amended C2 theorem at the concrete path `/v1/status`. -/
theorem canonicalPath_strips_literal_text_witness :
    ("/v1/status".data.take 7 ≠ pubPfx ∧ "/v1/status".data.take 8 ≠ privPfx) ∧
    canonicalPath "/v1/status".data = "/v1/status".data :=
  ⟨⟨by decide, by decide⟩,
    canonicalPath_strips_literal_text.2.2.1 "/v1/status".data (by decide) (by decide)⟩

/-- C7: signing attaches exactly the three headers `API-KEY`,
`API-TIMESTAMP` and `API-SIGN`, appended after the headers already present
on the request, which all keep their values (stated for requests that do
not already carry one of the three auth headers, which the client's
session never does). -/
theorem signing_appends_three_headers (a : GMOCoinAuth) (ts : List Char) (r : PreparedRequest)
    (h1 : getHeader r.headers "API-KEY" = none)
    (h2 : getHeader r.headers "API-TIMESTAMP" = none)
    (h3 : getHeader r.headers "API-SIGN" = none) :
    (a.call ts r).headers =
      r.headers ++ [("API-KEY", a.api_key), ("API-TIMESTAMP", ts),
        ("API-SIGN", signatureOf a ts r)] := by
  have a1 := any_eq_false_of_getHeader _ _ h1
  have a2 := any_eq_false_of_getHeader _ _ h2
  have a3 := any_eq_false_of_getHeader _ _ h3
  show setKey (setKey (setKey r.headers "API-KEY" a.api_key) "API-TIMESTAMP" ts)
      "API-SIGN" (signatureOf a ts r) = _
  rw [setKey_of_absent _ a1]
  rw [setKey_of_absent _ (show (r.headers ++ [("API-KEY", a.api_key)]).any
      (fun p => p.1 == "API-TIMESTAMP") = false by
    rw [List.any_append, a2, Bool.false_or]; simp)]
  rw [setKey_of_absent _ (show ((r.headers ++ [("API-KEY", a.api_key)]) ++
        [("API-TIMESTAMP", ts)]).any (fun p => p.1 == "API-SIGN") = false by
    rw [List.any_append, List.any_append, a3, Bool.false_or]; simp)]
  simp

/-- Witness for C7 at a concrete request carrying one `Content-Type`
header. -/
theorem signing_appends_three_headers_witness :
    (GMOCoinAuth.call ⟨"key".data, "secret".data⟩ "1000".data
        { method := "POST".data, pathUrl := "/private/v1/order".data,
          body := some "\x7b\x7d".data,
          headers := [("Content-Type", "application/json".data)] }).headers =
      [("Content-Type", "application/json".data)] ++
        [("API-KEY", "key".data), ("API-TIMESTAMP", "1000".data),
         ("API-SIGN", signatureOf ⟨"key".data, "secret".data⟩ "1000".data
            { method := "POST".data, pathUrl := "/private/v1/order".data,
              body := some "\x7b\x7d".data,
              headers := [("Content-Type", "application/json".data)] })] :=
  signing_appends_three_headers _ _ _ (by decide) (by decide) (by decide)

theorem request_waited (st : GMOCoinState) (method path : List Char)
    (payload : List (String × Option JValue)) (auth : Bool) (env : ReqEnv) :
    (GMOCoin.request st method path payload auth env).waited =
      if st.late_limit ∧ env.nowAtCheck < st.last_req_time + 1
      then st.last_req_time + 1 - env.nowAtCheck else 0 := by
  rcases env with ⟨now, dur, res, ts⟩
  rcases res with e | resp <;> simp [GMOCoin.request]

theorem request_sendStart (st : GMOCoinState) (method path : List Char)
    (payload : List (String × Option JValue)) (auth : Bool) (env : ReqEnv) :
    (GMOCoin.request st method path payload auth env).sendStart =
      env.nowAtCheck + (GMOCoin.request st method path payload auth env).waited := by
  rcases env with ⟨now, dur, res, ts⟩
  rcases res with e | resp <;> simp [GMOCoin.request]

theorem request_sendEnd (st : GMOCoinState) (method path : List Char)
    (payload : List (String × Option JValue)) (auth : Bool) (env : ReqEnv) :
    (GMOCoin.request st method path payload auth env).sendEnd =
      (GMOCoin.request st method path payload auth env).sendStart + env.sendDuration := by
  rcases env with ⟨now, dur, res, ts⟩
  rcases res with e | resp <;> simp [GMOCoin.request]

theorem request_state_late_limit (st : GMOCoinState) (method path : List Char)
    (payload : List (String × Option JValue)) (auth : Bool) (env : ReqEnv) :
    (GMOCoin.request st method path payload auth env).state.late_limit = st.late_limit := by
  rcases env with ⟨now, dur, res, ts⟩
  rcases res with e | resp <;> simp [GMOCoin.request] <;> split <;> rfl

theorem request_last_req_ok (st : GMOCoinState) (method path : List Char)
    (payload : List (String × Option JValue)) (auth : Bool) (env : ReqEnv)
    (resp : Response) (h : env.sendResult = Except.ok resp) (hl : st.late_limit = true) :
    (GMOCoin.request st method path payload auth env).state.last_req_time =
      (GMOCoin.request st method path payload auth env).sendEnd := by
  rcases env with ⟨now, dur, res, ts⟩
  cases h
  simp [GMOCoin.request, hl]

/-- C3: with rate limiting enabled, when the clock at the rate-limit
check is within one second of the last-send timestamp, the dispatch sleeps
for exactly the remaining fraction; the last-send timestamp is updated to
the clock value after the send completes; consequently a second
back-to-back call starts, and completes, at least one second after the
first send completed. -/
theorem rate_limit_one_second_spacing (st : GMOCoinState) (m1 p1 m2 p2 : List Char)
    (pl1 pl2 : List (String × Option JValue)) (a1 a2 : Bool) (env1 env2 : ReqEnv)
    (r1 r2 : Response)
    (hl : st.late_limit = true)
    (h1 : env1.sendResult = Except.ok r1) (h2 : env2.sendResult = Except.ok r2)
    (hd1 : 0 ≤ env1.sendDuration) (hd2 : 0 ≤ env2.sendDuration)
    (hb : (GMOCoin.request st m1 p1 pl1 a1 env1).sendEnd ≤ env2.nowAtCheck) :
    (env1.nowAtCheck < st.last_req_time + 1 →
      (GMOCoin.request st m1 p1 pl1 a1 env1).waited =
        st.last_req_time + 1 - env1.nowAtCheck) ∧
    (GMOCoin.request st m1 p1 pl1 a1 env1).state.last_req_time =
      (GMOCoin.request st m1 p1 pl1 a1 env1).sendEnd ∧
    (GMOCoin.request st m1 p1 pl1 a1 env1).sendEnd + 1 ≤
      (GMOCoin.request (GMOCoin.request st m1 p1 pl1 a1 env1).state m2 p2 pl2 a2
        env2).sendStart ∧
    (GMOCoin.request st m1 p1 pl1 a1 env1).sendEnd + 1 ≤
      (GMOCoin.request (GMOCoin.request st m1 p1 pl1 a1 env1).state m2 p2 pl2 a2
        env2).sendEnd := by
  have hlast := request_last_req_ok st m1 p1 pl1 a1 env1 r1 h1 hl
  have hll : (GMOCoin.request st m1 p1 pl1 a1 env1).state.late_limit = true := by
    rw [request_state_late_limit]; exact hl
  have hspace : (GMOCoin.request st m1 p1 pl1 a1 env1).sendEnd + 1 ≤
      (GMOCoin.request (GMOCoin.request st m1 p1 pl1 a1 env1).state m2 p2 pl2 a2
        env2).sendStart := by
    rw [request_sendStart, request_waited, hll, hlast]
    by_cases hc : env2.nowAtCheck <
        (GMOCoin.request st m1 p1 pl1 a1 env1).sendEnd + 1
    · rw [if_pos ⟨rfl, hc⟩]
      linarith
    · rw [if_neg (fun hand => hc hand.2)]
      linarith [not_lt.mp hc]
  refine ⟨fun hfast => ?_, hlast, hspace, ?_⟩
  · rw [request_waited, if_pos ⟨hl, hfast⟩]
  · rw [request_sendEnd (GMOCoin.request st m1 p1 pl1 a1 env1).state m2 p2 pl2 a2 env2]
    linarith

/-- Witness for C3: a fresh rate-limited client dispatches at clock 0 with
last send at 0, then again at clock 2. -/
theorem rate_limit_one_second_spacing_witness :
    (GMOCoin.request stW "GET".data "/v1/status".data [] false envOk1).sendEnd + 1 ≤
      (GMOCoin.request (GMOCoin.request stW "GET".data "/v1/status".data [] false
        envOk1).state "GET".data "/v1/status".data [] false envOk2).sendStart :=
  (rate_limit_one_second_spacing stW "GET".data "/v1/status".data "GET".data
    "/v1/status".data [] [] false false envOk1 envOk2 ⟨200, "ok".data⟩ ⟨200, "ok".data⟩
    rfl rfl rfl (by simp [envOk1]) (by simp [envOk2])
    (by
      rw [request_sendEnd, request_sendStart, request_waited]
      simp [stW, envOk1, envOk2])).2.2.1

/-- C4: when the send yields an HTTP response, the response object is
returned to the caller unconditionally with status and body intact; a
4xx/5xx status is logged as an error, never raised. -/
theorem error_response_returned_not_raised (st : GMOCoinState) (method path : List Char)
    (payload : List (String × Option JValue)) (auth : Bool) (env : ReqEnv)
    (resp : Response) (h : env.sendResult = Except.ok resp) :
    (GMOCoin.request st method path payload auth env).result = Except.ok resp ∧
    (400 ≤ resp.status_code → resp.status_code < 600 →
      (GMOCoin.request st method path payload auth env).httpErrorLogged = true) := by
  rcases env with ⟨now, dur, res, ts⟩
  cases h
  constructor
  · simp [GMOCoin.request]
  · intro h4 h6
    simp [GMOCoin.request, h4, h6]

/-- Witness for C4: a simulated 400 response is returned intact and the
error is logged. -/
theorem error_response_returned_not_raised_witness :
    (GMOCoin.request stW "GET".data "/v1/status".data [] false env400).result =
      Except.ok ⟨400, "bad request".data⟩ ∧
    (GMOCoin.request stW "GET".data "/v1/status".data [] false env400).httpErrorLogged =
      true :=
  ⟨(error_response_returned_not_raised stW "GET".data "/v1/status".data [] false env400
      ⟨400, "bad request".data⟩ rfl).1,
   (error_response_returned_not_raised stW "GET".data "/v1/status".data [] false env400
      ⟨400, "bad request".data⟩ rfl).2 (by decide) (by decide)⟩

/-- C5: every null-valued key is removed before the request is built:
the GET query and the POST body are built from the null-stripped payload,
a key/value pair survives stripping exactly when it was present non-null,
and `{symbol: BTC_JPY, page: null}` strips to `{symbol: BTC_JPY}`. -/
theorem null_valued_keys_removed (st : GMOCoinState) (path : List Char)
    (payload : List (String × Option JValue)) (env : ReqEnv) :
    (GMOCoin.request st "GET".data path payload false env).query =
      some (stripNone payload) ∧
    (GMOCoin.request st "POST".data path payload true env).prepped.body =
      some (jsonDumps (stripNone payload)) ∧
    (∀ k v, (k, v) ∈ stripNone payload ↔ (k, some v) ∈ payload) ∧
    stripNone [("symbol", some (.str "BTC_JPY".data)), ("page", none)] =
      [("symbol", .str "BTC_JPY".data)] := by
  refine ⟨?_, ?_, fun k v => ?_, rfl⟩
  · rcases env with ⟨now, dur, res, ts⟩
    rcases res with e | resp <;> simp [GMOCoin.request]
  · rcases env with ⟨now, dur, res, ts⟩
    rcases res with e | resp <;>
      simp [GMOCoin.request, GMOCoinAuth.call, decide_eq_true_eq]
  · constructor
    · intro h
      rw [stripNone, List.mem_filterMap] at h
      obtain ⟨⟨k', ov⟩, hm, hf⟩ := h
      cases ov with
      | none => simp at hf
      | some v' =>
        simp only [Option.map_some', Option.some.injEq, Prod.mk.injEq] at hf
        obtain ⟨hk, hv⟩ := hf
        rw [← hk, ← hv]
        exact hm
    · intro h
      rw [stripNone, List.mem_filterMap]
      exact ⟨(k, some v), h, rfl⟩

/-- C6: a GET dispatch turns the null-stripped payload into URL query
parameters and sends no body; a non-GET dispatch JSON-serializes it into
the body and adds no query parameters. -/
theorem get_query_nonget_body (st : GMOCoinState) (method path : List Char)
    (payload : List (String × Option JValue)) (auth : Bool) (env : ReqEnv) :
    (method = "GET".data →
      (GMOCoin.request st method path payload auth env).query =
        some (stripNone payload) ∧
      (GMOCoin.request st method path payload auth env).prepped.body = none) ∧
    (method ≠ "GET".data →
      (GMOCoin.request st method path payload auth env).prepped.body =
        some (jsonDumps (stripNone payload)) ∧
      (GMOCoin.request st method path payload auth env).query = none) := by
  rcases env with ⟨now, dur, res, ts⟩
  constructor
  · rintro rfl
    rcases res with e | resp <;> cases auth <;>
      simp [GMOCoin.request, GMOCoinAuth.call]
  · intro hne
    rcases res with e | resp <;> cases auth <;>
      simp [GMOCoin.request, GMOCoinAuth.call, hne]

/-- Witness for C6 at a concrete GET call and a concrete POST call. -/
theorem get_query_nonget_body_witness :
    ((GMOCoin.request stW "GET".data "/v1/ticker".data
        [("symbol", some (.str "BTC_JPY".data))] false envOk1).query =
      some (stripNone [("symbol", some (.str "BTC_JPY".data))]) ∧
     (GMOCoin.request stW "GET".data "/v1/ticker".data
        [("symbol", some (.str "BTC_JPY".data))] false envOk1).prepped.body = none) ∧
    ((GMOCoin.request stW "POST".data "/v1/order".data
        [("symbol", some (.str "BTC_JPY".data))] true envOk1).prepped.body =
      some (jsonDumps (stripNone [("symbol", some (.str "BTC_JPY".data))])) ∧
     (GMOCoin.request stW "POST".data "/v1/order".data
        [("symbol", some (.str "BTC_JPY".data))] true envOk1).query = none) :=
  ⟨(get_query_nonget_body stW "GET".data "/v1/ticker".data
      [("symbol", some (.str "BTC_JPY".data))] false envOk1).1 rfl,
   (get_query_nonget_body stW "POST".data "/v1/order".data
      [("symbol", some (.str "BTC_JPY".data))] true envOk1).2 (by decide)⟩

/-- C8: the closeorder payload's `settlePosition` field is a
one-element list holding the object `{positionId, size}`; in particular
`positionId=123, size="0.1"` yields
`settlePosition = [{positionId: 123, size: "0.1"}]`. -/
theorem closeorder_nests_settlePosition (symbol side executionType : List Char)
    (pid : Int) (sz : List Char) (price : Option Int) :
    (closeorderPayload symbol side executionType pid sz price).find?
        (fun p => p.1 == "settlePosition") =
      some ("settlePosition", some (.list [.obj
        [("positionId", .num pid), ("size", .str sz)]])) ∧
    (closeorderPayload symbol side executionType 123 "0.1".data price).find?
        (fun p => p.1 == "settlePosition") =
      some ("settlePosition", some (.list [.obj
        [("positionId", .num 123), ("size", .str "0.1".data)]])) := by
  exact ⟨rfl, rfl⟩

/-- C9: a transport-level exception from the send propagates to the
caller, is not logged as a caught HTTP error, and leaves the last-send
timestamp unchanged. -/
theorem transport_error_propagates (st : GMOCoinState) (method path : List Char)
    (payload : List (String × Option JValue)) (auth : Bool) (env : ReqEnv)
    (e : TransportError) (hl : st.late_limit = true)
    (h : env.sendResult = Except.error e) :
    (GMOCoin.request st method path payload auth env).result = Except.error e ∧
    (GMOCoin.request st method path payload auth env).state.last_req_time =
      st.last_req_time ∧
    (GMOCoin.request st method path payload auth env).httpErrorLogged = false := by
  rcases env with ⟨now, dur, res, ts⟩
  cases h
  refine ⟨?_, ?_, ?_⟩ <;> simp [GMOCoin.request]

/-- Witness for C9: a connection failure propagates and the timestamp is
untouched. -/
theorem transport_error_propagates_witness :
    (GMOCoin.request stW "GET".data "/v1/status".data [] false envErr).result =
      Except.error ⟨"connection refused"⟩ ∧
    (GMOCoin.request stW "GET".data "/v1/status".data [] false envErr).state.last_req_time =
      stW.last_req_time :=
  ⟨(transport_error_propagates stW "GET".data "/v1/status".data [] false envErr
      ⟨"connection refused"⟩ rfl rfl).1,
   (transport_error_propagates stW "GET".data "/v1/status".data [] false envErr
      ⟨"connection refused"⟩ rfl rfl).2.1⟩

/-- C10: an unauthenticated dispatch clears the session auth hook
(whatever it was before), so the prepared request's headers are exactly
the session headers and carry none of the three auth headers when the
session headers do not. -/
theorem public_dispatch_clears_auth (st : GMOCoinState) (method path : List Char)
    (payload : List (String × Option JValue)) (env : ReqEnv)
    (h1 : getHeader st.sessionHeaders "API-KEY" = none)
    (h2 : getHeader st.sessionHeaders "API-TIMESTAMP" = none)
    (h3 : getHeader st.sessionHeaders "API-SIGN" = none) :
    (GMOCoin.request st method path payload false env).state.sessionAuth = none ∧
    (GMOCoin.request st method path payload false env).prepped.headers =
      st.sessionHeaders ∧
    getHeader (GMOCoin.request st method path payload false env).prepped.headers
      "API-KEY" = none ∧
    getHeader (GMOCoin.request st method path payload false env).prepped.headers
      "API-TIMESTAMP" = none ∧
    getHeader (GMOCoin.request st method path payload false env).prepped.headers
      "API-SIGN" = none := by
  have hh : (GMOCoin.request st method path payload false env).prepped.headers =
      st.sessionHeaders := by
    rcases env with ⟨now, dur, res, ts⟩
    rcases res with e | resp <;> simp [GMOCoin.request]
  have hs : (GMOCoin.request st method path payload false env).state.sessionAuth = none := by
    rcases env with ⟨now, dur, res, ts⟩
    rcases res with e | resp <;> simp [GMOCoin.request] <;> split <;> rfl
  exact ⟨hs, hh, hh ▸ h1, hh ▸ h2, hh ▸ h3⟩

/-- Witness for C10: a public call right after an authenticated one (auth
hook set) carries no auth headers and resets the hook. -/
theorem public_dispatch_clears_auth_witness :
    (GMOCoin.request stAuthW "GET".data "/v1/status".data [] false envOk1).state.sessionAuth =
      none ∧
    getHeader (GMOCoin.request stAuthW "GET".data "/v1/status".data [] false
      envOk1).prepped.headers "API-SIGN" = none :=
  ⟨(public_dispatch_clears_auth stAuthW "GET".data "/v1/status".data [] envOk1
      (by decide) (by decide) (by decide)).1,
   (public_dispatch_clears_auth stAuthW "GET".data "/v1/status".data [] envOk1
      (by decide) (by decide) (by decide)).2.2.2.2⟩

end Gmocoiner
